import Mathlib

/-!
Verification of the spine-widget `spine-sys` shim (src/spine-sys/wrapper.h).

The repository ships only the header `wrapper.h`, which declares the
allocation-dispatcher and file-loader surface (`_malloc`, `_calloc`,
`_free`, `_setMalloc`, `_setDebugMalloc`, `_setFree`, `_readFile`).
The declaration surface (function names and parameter shapes) is embedded
directly from the header.  The bodies of these functions are not part of
the repository, so their behavior is modelled from the specification:
each such definition carries a doc comment starting `Modelled from the
spec:`.
-/

/-- C parameter types appearing in wrapper.h declarations. -/
inductive CTy
  | size_t
  | int_t
  | constCharPtr
  | voidPtr
  | intPtr
  deriving DecidableEq, Repr

/-- A registration function declared in wrapper.h: its name and the
parameter types of the callback it registers. -/
structure SetterDecl where
  name : String
  cbParams : List CTy
  deriving DecidableEq, Repr

/-- The three override-slot registration functions declared in
src/spine-sys/wrapper.h, lines 12-14, with the parameter types of the
function pointer each one accepts. -/
def wrapperSetters : List SetterDecl :=
  [⟨("_setMalloc"), [CTy.size_t]⟩,
   ⟨("_setDebugMalloc"), [CTy.size_t, CTy.constCharPtr, CTy.int_t]⟩,
   ⟨("_setFree"), [CTy.voidPtr]⟩]

/-- A plain function declared in wrapper.h: its name and parameter types. -/
structure FnDecl where
  name : String
  params : List CTy
  deriving DecidableEq, Repr

/-- The two allocation entry points declared in src/spine-sys/wrapper.h,
lines 8-9. -/
def wrapperAllocEntryPoints : List FnDecl :=
  [⟨("_malloc"), [CTy.size_t, CTy.constCharPtr, CTy.int_t]⟩,
   ⟨("_calloc"), [CTy.size_t, CTy.size_t, CTy.constCharPtr, CTy.int_t]⟩]

/-- Heap model: a fresh-pointer counter and an association list from
pointer ids to buffer contents.  Pointer id 0 plays the role of NULL and
is never allocated. -/
structure Mem where
  next : Nat
  heap : List (Nat × List UInt8)
  deriving DecidableEq, Repr

/-- The platform's default allocation primitive: returns a fresh non-null
pointer to a buffer of `size` (uninitialized, modelled as zeros). -/
def Mem.alloc (m : Mem) (size : Nat) : Nat × Mem :=
  (m.next + 1, ⟨m.next + 1, (m.next + 1, List.replicate size 0) :: m.heap⟩)

/-- Overwrite the contents of the buffer at pointer `p`. -/
def Mem.write (m : Mem) (p : Nat) (bs : List UInt8) : Mem :=
  ⟨m.next, m.heap.map (fun e => if e.1 = p then (p, bs) else e)⟩

/-- Read back the contents of the buffer at pointer `p`. -/
def Mem.read (m : Mem) (p : Nat) : Option (List UInt8) :=
  (m.heap.find? (fun e => e.1 = p)).map Prod.snd

/-- The platform's default deallocation primitive. -/
def Mem.dealloc (m : Mem) (p : Nat) : Mem :=
  ⟨m.next, m.heap.filter (fun e => e.1 ≠ p)⟩

/-- An empty heap. -/
def initialMem : Mem := ⟨0, []⟩

/-- The Allocation Dispatcher's process-wide override slots.  `σ` is the
host application's private state, threaded through every override call
(a counting override uses `σ := Nat`, a recording override a list).
Each slot is `none` ("use default", the initial state) or holds the
registered function; registering `none` reverts a slot to default. -/
structure Env (σ : Type) where
  mallocFunc : Option (Nat → Mem → σ → Nat × Mem × σ)
  debugMallocFunc : Option (Nat → String → Int → Mem → σ → Nat × Mem × σ)
  freeFunc : Option (Nat → Mem → σ → Mem × σ)

/-- All three slots start out unset ("use default"). -/
def initialEnv {σ : Type} : Env σ := ⟨none, none, none⟩

/-- Modelled from the spec: `_setMalloc` (wrapper.h line 12; body not in
the repository).  Registers or replaces the allocate override; a pure
assignment, last registration wins. -/
def _setMalloc {σ : Type} (env : Env σ)
    (fn : Option (Nat → Mem → σ → Nat × Mem × σ)) : Env σ :=
  { env with mallocFunc := fn }

/-- Modelled from the spec: `_setDebugMalloc` (wrapper.h line 13; body not
in the repository).  Registers or replaces the debug-allocate override. -/
def _setDebugMalloc {σ : Type} (env : Env σ)
    (fn : Option (Nat → String → Int → Mem → σ → Nat × Mem × σ)) : Env σ :=
  { env with debugMallocFunc := fn }

/-- Modelled from the spec: `_setFree` (wrapper.h line 14; body not in the
repository).  Registers or replaces the free override. -/
def _setFree {σ : Type} (env : Env σ)
    (fn : Option (Nat → Mem → σ → Mem × σ)) : Env σ :=
  { env with freeFunc := fn }

/-- Modelled from the spec: `_malloc` (wrapper.h line 8; body not in the
repository).  The single allocation entry point carries call-site
provenance `(file, line)`.  If the debug-allocate override slot is set it
delegates with all three arguments; else if the allocate override slot is
set it delegates with `size` as sole argument (provenance dropped); else
it uses the platform default.  The result is returned unmodified. -/
def _malloc {σ : Type} (env : Env σ) (size : Nat) (file : String)
    (line : Int) (m : Mem) (s : σ) : Nat × Mem × σ :=
  match env.debugMallocFunc with
  | some fn => fn size file line m s
  | none =>
    match env.mallocFunc with
    | some fn => fn size m s
    | none =>
      let r := m.alloc size
      (r.1, r.2, s)

/-- Modelled from the spec: `_calloc` (wrapper.h line 9; body not in the
repository).  wrapper.h declares no zero-allocate override slot, so
`_calloc` obtains `num * size` bytes through the same dispatch as
`_malloc` and zero-fills the buffer on success; a null result propagates
unchanged. -/
def _calloc {σ : Type} (env : Env σ) (num size : Nat) (file : String)
    (line : Int) (m : Mem) (s : σ) : Nat × Mem × σ :=
  let r := _malloc env (num * size) file line m s
  if r.1 = 0 then r
  else (r.1, (r.2.1).write r.1 (List.replicate (num * size) 0), r.2.2)

/-- Modelled from the spec: `_free` (wrapper.h line 10; body not in the
repository).  Freeing a null buffer is a no-op, not an error; otherwise
delegates to the free override slot if set, else to the platform
default. -/
def _free {σ : Type} (env : Env σ) (p : Nat) (m : Mem) (s : σ) : Mem × σ :=
  if p = 0 then (m, s)
  else
    match env.freeFunc with
    | some fn => fn p m s
    | none => (m.dealloc p, s)

/-- A named-resource store: the file system visible to `_readFile`. -/
def FileSystem : Type := String → Option (List UInt8)

/-- Modelled from the spec: `_readFile` (wrapper.h line 16; body not in
the repository).  On a missing resource it returns a null buffer and
length 0 without allocating.  Otherwise it obtains a buffer of the
resource's size through the Allocation Dispatcher's `_malloc` (so the
allocation is subject to whatever override is active), copies the
contents in, and reports the byte count. -/
def _readFile {σ : Type} (env : Env σ) (fs : FileSystem) (path : String)
    (m : Mem) (s : σ) : Nat × Int × Mem × σ :=
  match fs path with
  | none => (0, 0, m, s)
  | some data =>
    let r := _malloc env data.length ("extension.c") 0 m s
    if r.1 = 0 then (0, 0, r.2.1, r.2.2)
    else (r.1, (data.length : Int), (r.2.1).write r.1 data, r.2.2)

/-- A test override that counts its invocations while allocating through
the platform default (host state `σ := Nat` is the counter). -/
def countingMalloc : Nat → Mem → Nat → Nat × Mem × Nat :=
  fun size m c =>
    let r := m.alloc size
    (r.1, r.2, c + 1)

/-- `n` successive calls to the allocation entry point, threading the heap
and the host counter. -/
def iterMalloc (env : Env Nat) (size : Nat) : Nat → Mem → Nat → Mem × Nat
  | 0, m, c => (m, c)
  | n + 1, m, c =>
    let r := _malloc env size ("f") 0 m c
    iterMalloc env size n r.2.1 r.2.2

/-- A plain override that always reports allocation failure (null). -/
def nullMalloc : Nat → Mem → Unit → Nat × Mem × Unit :=
  fun _ m s => (0, m, s)

/-- A debug override that always reports allocation failure (null). -/
def nullDebugMalloc : Nat → String → Int → Mem → Unit → Nat × Mem × Unit :=
  fun _ _ _ m s => (0, m, s)

/-- A file system with no resources at all. -/
def emptyFS : FileSystem := fun _ => none

/-- A one-resource file system holding two bytes under the name a.txt. -/
def oneFileFS : FileSystem :=
  fun p => if p = "a.txt" then some [65, 66] else none

/-- With the counting override in the allocate slot and the debug slot
unset, each `_malloc` call bumps the counter by one. -/
theorem iterMalloc_counting (size : Nat) :
    ∀ (n : Nat) (m : Mem) (c : Nat),
      (iterMalloc (_setMalloc initialEnv (some countingMalloc)) size n m c).2
        = c + n := by
  intro n
  induction n with
  | zero => intro m c; simp [iterMalloc]
  | succ k ih =>
    intro m c
    have h := ih (Mem.alloc m size).2 (c + 1)
    simp only [iterMalloc, _malloc, _setMalloc, initialEnv, countingMalloc]
    simp only [iterMalloc, _malloc, _setMalloc, initialEnv,
      countingMalloc] at h
    omega

/-- C1: after registering a counting override in the allocate slot via
`_setMalloc`, every one of `N` subsequent calls to the allocation entry
point `_malloc` routes through it, leaving the counter at exactly `N`. -/
theorem setAllocator_routes_all_allocs (N size : Nat) (m : Mem) :
    (iterMalloc (_setMalloc initialEnv (some countingMalloc)) size N m 0).2
      = N := by
  simpa using iterMalloc_counting size N m 0

/-- C2 counterexample: wrapper.h declares exactly three registration
calls, whose callback shapes are allocate `(size)`, debug-allocate
`(size, file, line)` and free `(ptr)`.  No registration call accepts a
zero-allocate-shaped callback `(num, size)` and none is named
`_setCalloc`: there is no zero-allocate override slot. -/
theorem no_zero_allocate_slot :
    wrapperSetters.map SetterDecl.cbParams =
      [[CTy.size_t], [CTy.size_t, CTy.constCharPtr, CTy.int_t],
       [CTy.voidPtr]] ∧
    ¬ [CTy.size_t, CTy.size_t] ∈ wrapperSetters.map SetterDecl.cbParams ∧
    ¬ ("_setCalloc") ∈ wrapperSetters.map SetterDecl.name := by
  refine ⟨rfl, by decide, by decide⟩

/-- C2 amended: the three override slots are allocate, debug-allocate and
free, each with its own registration call, and `_calloc` dispatches
through the allocate override slot when it is set (there being no
zero-allocate slot), zero-filling the buffer it obtains. -/
theorem calloc_routes_allocate_slot (num size : Nat) (f : String)
    (l : Int) (m : Mem) (c : Nat) :
    (_calloc (_setMalloc initialEnv (some countingMalloc)) num size f l
        m c).1 ≠ 0 ∧
    (_calloc (_setMalloc initialEnv (some countingMalloc)) num size f l
        m c).2.2 = c + 1 ∧
    ((_calloc (_setMalloc initialEnv (some countingMalloc)) num size f l
        m c).2.1).read
      ((_calloc (_setMalloc initialEnv (some countingMalloc)) num size f l
        m c).1) = some (List.replicate (num * size) 0) := by
  simp [_calloc, _malloc, _setMalloc, initialEnv, countingMalloc,
    Mem.alloc, Mem.write, Mem.read, List.find?]

/-- C3: the allocation entry point invokes a registered debug override
with exactly the `(size, file, line)` it was called with — provenance is
passed through unmodified, whatever the rest of the dispatcher state. -/
theorem debug_provenance_passthrough {σ : Type} (env : Env σ)
    (fn : Nat → String → Int → Mem → σ → Nat × Mem × σ) (size : Nat)
    (f : String) (n : Int) (m : Mem) (s : σ) :
    _malloc (_setDebugMalloc env (some fn)) size f n m s
      = fn size f n m s := rfl

/-- C4: `_readFile` on a resource of exactly `K = data.length` bytes
returns a non-null buffer, reports length `K`, and the buffer holds the
resource's contents byte-for-byte. -/
theorem readFile_success (fs : FileSystem) (path : String)
    (data : List UInt8) (m : Mem) (h : fs path = some data) :
    (_readFile (initialEnv : Env Unit) fs path m ()).1 ≠ 0 ∧
    (_readFile (initialEnv : Env Unit) fs path m ()).2.1
      = (data.length : Int) ∧
    ((_readFile (initialEnv : Env Unit) fs path m ()).2.2.1).read
      ((_readFile (initialEnv : Env Unit) fs path m ()).1)
      = some data := by
  simp [_readFile, h, _malloc, initialEnv, Mem.alloc, Mem.write, Mem.read,
    List.find?]

/-- C4 witness: a two-byte resource is read back with length 2 and its
exact contents. -/
theorem readFile_success_witness :
    oneFileFS ("a.txt") = some [65, 66] ∧
    ((_readFile (initialEnv : Env Unit) oneFileFS ("a.txt") initialMem
        ()).1 ≠ 0 ∧
     (_readFile (initialEnv : Env Unit) oneFileFS ("a.txt") initialMem
        ()).2.1 = (([65, 66] : List UInt8).length : Int) ∧
     ((_readFile (initialEnv : Env Unit) oneFileFS ("a.txt") initialMem
        ()).2.2.1).read
       ((_readFile (initialEnv : Env Unit) oneFileFS ("a.txt") initialMem
        ()).1) = some [65, 66]) :=
  ⟨by decide, readFile_success oneFileFS ("a.txt") [65, 66] initialMem
    (by decide)⟩

/-- C5: `_readFile` on a missing resource returns the null buffer and
length 0 and leaves the heap and host state untouched — no allocation
survives the failure path. -/
theorem readFile_missing {σ : Type} (env : Env σ) (fs : FileSystem)
    (path : String) (m : Mem) (s : σ) (h : fs path = none) :
    _readFile env fs path m s = (0, 0, m, s) := by
  simp [_readFile, h]

/-- C5 witness: reading from an empty file system fails with null buffer,
zero length and unchanged state. -/
theorem readFile_missing_witness :
    emptyFS ("x") = none ∧
    _readFile (initialEnv : Env Unit) emptyFS ("x") initialMem ()
      = (0, 0, initialMem, ()) :=
  ⟨rfl, readFile_missing (initialEnv : Env Unit) emptyFS ("x") initialMem
    () rfl⟩

/-- C6: with a counting override registered in the allocate slot, the one
buffer `_readFile` allocates is obtained through the dispatcher: the
counter rises by exactly one and the returned buffer is the very pointer
the override produced — no allocation bypasses the hook. -/
theorem readFile_allocs_through_dispatcher (fs : FileSystem)
    (path : String) (data : List UInt8) (m : Mem) (c : Nat)
    (h : fs path = some data) :
    (_readFile (_setMalloc initialEnv (some countingMalloc)) fs path m
        c).2.2.2 = c + 1 ∧
    (_readFile (_setMalloc initialEnv (some countingMalloc)) fs path m
        c).1 = (countingMalloc data.length m c).1 := by
  simp [_readFile, h, _malloc, _setMalloc, initialEnv, countingMalloc,
    Mem.alloc]

/-- C6 witness: reading a concrete two-byte resource under the counting
override bumps the counter from 0 to 1 and returns the override's
pointer. -/
theorem readFile_allocs_through_dispatcher_witness :
    oneFileFS ("a.txt") = some [65, 66] ∧
    ((_readFile (_setMalloc initialEnv (some countingMalloc)) oneFileFS
        ("a.txt") initialMem 0).2.2.2 = 0 + 1 ∧
     (_readFile (_setMalloc initialEnv (some countingMalloc)) oneFileFS
        ("a.txt") initialMem 0).1
       = (countingMalloc ([65, 66] : List UInt8).length initialMem 0).1) :=
  ⟨by decide, readFile_allocs_through_dispatcher oneFileFS ("a.txt")
    [65, 66] initialMem 0 (by decide)⟩

/-- C7: the dispatcher is a pure dispatch layer for failure: when the
active primitive (plain or debug override) returns null, `_malloc`
returns that very result unchanged — no retry, no substitution. -/
theorem dispatcher_null_propagates (size : Nat) (f : String) (l : Int)
    (m : Mem) (s : Unit) (hP : (nullMalloc size m s).1 = 0)
    (hD : (nullDebugMalloc size f l m s).1 = 0) :
    _malloc (_setMalloc initialEnv (some nullMalloc)) size f l m s
      = nullMalloc size m s ∧
    (_malloc (_setMalloc initialEnv (some nullMalloc)) size f l m s).1
      = 0 ∧
    _malloc (_setDebugMalloc initialEnv (some nullDebugMalloc)) size f l
        m s = nullDebugMalloc size f l m s ∧
    (_malloc (_setDebugMalloc initialEnv (some nullDebugMalloc)) size f l
        m s).1 = 0 :=
  ⟨rfl, hP, rfl, hD⟩

/-- C7 witness: at size 1 the failing overrides return null and the
dispatcher passes the null through unchanged. -/
theorem dispatcher_null_propagates_witness :
    (nullMalloc 1 initialMem ()).1 = 0 ∧
    (nullDebugMalloc 1 ("a") 2 initialMem ()).1 = 0 ∧
    (_malloc (_setMalloc initialEnv (some nullMalloc)) 1 ("a") 2
        initialMem () = nullMalloc 1 initialMem () ∧
     (_malloc (_setMalloc initialEnv (some nullMalloc)) 1 ("a") 2
        initialMem ()).1 = 0 ∧
     _malloc (_setDebugMalloc initialEnv (some nullDebugMalloc)) 1 ("a")
        2 initialMem () = nullDebugMalloc 1 ("a") 2 initialMem () ∧
     (_malloc (_setDebugMalloc initialEnv (some nullDebugMalloc)) 1 ("a")
        2 initialMem ()).1 = 0) :=
  ⟨rfl, rfl, dispatcher_null_propagates 1 ("a") 2 initialMem () rfl rfl⟩

/-- C8: `_free` on the null buffer is a no-op — heap and host state are
returned unchanged — for every dispatcher state, with or without a free
override registered. -/
theorem free_null_noop {σ : Type} (env : Env σ) (m : Mem) (s : σ) :
    _free env 0 m s = (m, s) := by
  simp [_free]

/-- C9: for each of the three slots, registering the same function twice
leaves the slot state identical to registering it once, and registering a
new function unconditionally replaces the previous occupant. -/
theorem setters_idempotent_last_wins {σ : Type} (env : Env σ)
    (f g : Option (Nat → Mem → σ → Nat × Mem × σ))
    (df dg : Option (Nat → String → Int → Mem → σ → Nat × Mem × σ))
    (rf rg : Option (Nat → Mem → σ → Mem × σ)) :
    _setMalloc (_setMalloc env f) f = _setMalloc env f ∧
    _setMalloc (_setMalloc env f) g = _setMalloc env g ∧
    _setDebugMalloc (_setDebugMalloc env df) df = _setDebugMalloc env df ∧
    _setDebugMalloc (_setDebugMalloc env df) dg = _setDebugMalloc env dg ∧
    _setFree (_setFree env rf) rf = _setFree env rf ∧
    _setFree (_setFree env rf) rg = _setFree env rg :=
  ⟨rfl, rfl, rfl, rfl, rfl, rfl⟩

/-- C10: both declared allocation entry points carry `(file, line)`
provenance parameters — there is no provenance-free entry point — while
the callback `_setMalloc` registers receives only the size, and dispatch
to a plain override is independent of the provenance arguments. -/
theorem no_provenance_free_entry_point {σ : Type}
    (fn : Nat → Mem → σ → Nat × Mem × σ) (size : Nat) (f1 f2 : String)
    (l1 l2 : Int) (m : Mem) (s : σ) :
    wrapperAllocEntryPoints.map FnDecl.params =
      [[CTy.size_t, CTy.constCharPtr, CTy.int_t],
       [CTy.size_t, CTy.size_t, CTy.constCharPtr, CTy.int_t]] ∧
    (wrapperSetters.map SetterDecl.cbParams).head? = some [CTy.size_t] ∧
    _malloc (_setMalloc initialEnv (some fn)) size f1 l1 m s
      = _malloc (_setMalloc initialEnv (some fn)) size f2 l2 m s :=
  ⟨rfl, rfl, rfl⟩
